import Mathlib

/-!
Verification of the MCP example servers in this repository against their
design description.  The development shallowly embeds the two example
servers (`mcp-examples/stdio-py/server.py`, `mcp-examples/http-py/server.py`)
and the Parth tool handlers (`parth/server.py`, `parth/tools/server/*.py`).

Modelling conventions, stated once here:
* JSON documents are the inductive `Json` below; Python dicts keep insertion
  order, so objects are ordered association lists.
* `json.dumps` / `json.loads` (Python standard library, below the framing
  boundary that the design places out of scope) are modelled at the document
  level: a field that carries the serialized text of a document carries the
  document itself, via the marker `json_dumps`.
* Machine integers: every number that appears is a small integer; they are
  modelled as `Int` (no overflow is reachable).
* Python exceptions raised inside a handler (`AttributeError` from calling
  `.get` on a non-dict, `TypeError` from an unhashable dict key, `KeyError`,
  `IndexError`) are modelled with `Except String`; the carried string is a
  fixed tag naming the exception class, because the interpreter-generated
  message text is never inspected by the servers.
* `random.choice(xs)` is modelled by an explicit selection index.
-/

/-- A JSON document.  Objects are ordered association lists, matching the
insertion-ordered dicts the Python servers build. -/
inductive Json where
  | null
  | boolean (b : Bool)
  | num (n : Int)
  | str (s : String)
  | arr (elems : List Json)
  | obj (entries : List (String × Json))

/-- First-match lookup in an association list; models `dict[...]` access and
`dict.get` on a string key (the servers never build duplicate keys). -/
def alistFind {α : Type} : List (String × α) → String → Option α
  | [], _ => none
  | (k, v) :: rest, key => if k == key then some v else alistFind rest key

/-- Models Python dict assignment `d[key] = v`: replaces the first binding of
`key` in place, otherwise appends (insertion-order semantics). -/
def setKey : List (String × Json) → String → Json → List (String × Json)
  | [], key, v => [(key, v)]
  | (k, w) :: rest, key, v =>
      if k == key then (key, v) :: rest else (k, w) :: setKey rest key v

/-- Python truthiness of a JSON value: `None`, `False`, `0`, `""`, `[]` and
an empty dict are falsy, everything else is truthy. -/
def Json.truthy : Json → Bool
  | .null => false
  | .boolean b => b
  | .num n => n != 0
  | .str s => s != ""
  | .arr elems => !elems.isEmpty
  | .obj entries => !entries.isEmpty

/-- Python truthiness of an optional value (`None` is falsy). -/
def optTruthy : Option Json → Bool
  | none => false
  | some j => j.truthy

/-- Models the Python comparison `x == "lit"` where `x` may be absent
(`None`): only a string with the same characters compares equal. -/
def strEq : Option Json → String → Bool
  | some (Json.str t), s => t == s
  | _, _ => false

/-- Models `x or dflt`: keeps `x` when it is present and truthy, otherwise
yields the default. -/
def pyOr (v : Option Json) (dflt : Json) : Json :=
  match v with
  | some j => if j.truthy then j else dflt
  | none => dflt

/-- Models calling `.get` on a value that must be a dict; a non-dict raises
`AttributeError` at the call site. -/
def asEntries : Json → Except String (List (String × Json))
  | Json.obj entries => .ok entries
  | _ => .error "AttributeError"

/-- Whether a document is an object carrying the given key. -/
def keyOccurs (j : Json) (k : String) : Bool :=
  match j with
  | .obj entries => entries.any (fun e => e.1 == k)
  | _ => false

/-- Field lookup on a document (none when the document is not an object). -/
def jget (j : Json) (k : String) : Option Json :=
  match j with
  | .obj entries => alistFind entries k
  | _ => none

/-- Python `repr` of a JSON-shaped value, used only for `str()` of lists and
dicts interpolated into f-strings; no server code path that a claim touches
ever interpolates a container, so only its totality matters. -/
def Json.pyRepr : Json → String
  | .null => "None"
  | .boolean true => "True"
  | .boolean false => "False"
  | .num n => toString n
  | .str s => "\x27" ++ s ++ "\x27"
  | .arr elems =>
      "[" ++ String.intercalate ", " (elems.attach.map (fun e => e.1.pyRepr)) ++ "]"
  | .obj entries =>
      "\x7b" ++ String.intercalate ", "
        (entries.attach.map (fun e => "\x27" ++ e.1.1 ++ "\x27: " ++ e.1.2.pyRepr)) ++ "\x7d"
decreasing_by
  · simp_wf
    have := List.sizeOf_lt_of_mem e.2
    omega
  · simp_wf
    have h1 := List.sizeOf_lt_of_mem e.2
    have h2 : sizeOf e.1.2 < sizeOf e.1 := by
      obtain ⟨⟨a, b⟩, hm⟩ := e
      simp
    omega

/-- Python `str()` as used in the servers' f-strings. -/
def pyStr : Json → String
  | .null => "None"
  | .boolean true => "True"
  | .boolean false => "False"
  | .num n => toString n
  | .str s => s
  | j => j.pyRepr

/-- Character-list prefix test (spelled out so concrete instances evaluate
inside the kernel). -/
def pfxOf : List Char → List Char → Bool
  | [], _ => true
  | _ :: _, [] => false
  | a :: as, b :: bs => a == b && pfxOf as bs

/-- Substring occurrence on character lists. -/
def hasSubList (pat : List Char) : List Char → Bool
  | [] => pfxOf pat []
  | c :: rest => pfxOf pat (c :: rest) || hasSubList pat rest

/-- Models the Python membership test `needle in hay` on strings. -/
def pyIn (needle hay : String) : Bool :=
  hasSubList needle.data hay.data

/-- Lower-casing a string character by character, models `str.lower()` for
the ASCII condition names the servers compare. -/
def strLower (s : String) : String :=
  ⟨s.data.map Char.toLower⟩

/-- Marker for `json.dumps`: the serialized text of a document is modelled by
the document itself (byte-level rendering is transport plumbing, out of the
design's scope). -/
def json_dumps (document : Json) : Json := document

/-- Static weather table entry (`mcp-examples/*/server.py`, `weather_data`). -/
structure WeatherInfo where
  temperature : Int
  condition : String
  humidity : Int
  windSpeed : Int

/-- Dict lookup `weather_data.get(location)` where the key is an arbitrary
JSON value: a list or dict key raises `TypeError` (unhashable), any other
non-string value is hashable but never equals the string keys. -/
def weatherTableGet (table : List (String × WeatherInfo)) (loc : Json) :
    Except String (Option WeatherInfo) :=
  match loc with
  | Json.str s => .ok (alistFind table s)
  | Json.arr _ => .error "TypeError"
  | Json.obj _ => .error "TypeError"
  | _ => .ok none

namespace StdioS

/-- Embeds `mcp-examples/stdio-py/server.py`, `weather_data`. -/
def weather_data : List (String × WeatherInfo) :=
  [("Bengaluru", ⟨28, "Partly Cloudy", 65, 12⟩),
   ("Mumbai", ⟨32, "Sunny", 75, 15⟩),
   ("Delhi", ⟨35, "Hot", 45, 10⟩),
   ("Chennai", ⟨30, "Humid", 80, 18⟩)]

/-- Embeds `get_food_recommendation` of the stdio server. -/
def get_food_recommendation (condition : String) (temperature : Int) : String :=
  let condition_lower := strLower condition
  if pyIn "rain" condition_lower || pyIn "cloudy" condition_lower then
    "Hot Masala Dosa with Sambar and Chutney - perfect for a cozy rainy day!"
  else if pyIn "sunny" condition_lower || temperature > 30 then
    "Cool Raita, Fresh Fruit Salad, and Lemon Rice - refreshing for hot weather!"
  else if pyIn "cold" condition_lower || temperature < 20 then
    "Hot Biryani with Raita and Gulab Jamun - warming comfort food!"
  else
    "Butter Chicken with Naan and Mango Lassi - a balanced meal for pleasant weather!"

/-- Embeds `send_response`: an `error` argument that is present and truthy
selects the error envelope, otherwise the result envelope is sent (with
`result` rendered as `null` when absent, as `json.dumps(None)` does). -/
def send_response (response_id : Json) (result : Option Json)
    (error : Option Json) : Json :=
  match error with
  | some e =>
      if e.truthy then
        Json.obj [("jsonrpc", Json.str "2.0"), ("id", response_id), ("error", e)]
      else
        Json.obj [("jsonrpc", Json.str "2.0"), ("id", response_id),
                  ("result", result.getD Json.null)]
  | none =>
      Json.obj [("jsonrpc", Json.str "2.0"), ("id", response_id),
                ("result", result.getD Json.null)]

/-- Embeds `handle_initialize` (renamed: Lean-side naming constraint). -/
def handle_init (_request : List (String × Json)) : Json :=
  Json.obj
    [("protocolVersion", Json.str "2024-11-05"),
     ("capabilities", Json.obj
        [("tools", Json.obj [("listChanged", Json.boolean true)]),
         ("prompts", Json.obj []),
         ("resources", Json.obj [])]),
     ("serverInfo", Json.obj
        [("name", Json.str "example-stdio-py-server"),
         ("version", Json.str "1.0.0")])]

/-- Embeds `handle_tools_list`. -/
def handle_tools_list (_request : List (String × Json)) : Json :=
  Json.obj
    [("tools", Json.arr
      [Json.obj
        [("name", Json.str "getCurrentLocation"),
         ("description", Json.str "Get the current location. Returns Bengaluru."),
         ("inputSchema", Json.obj
            [("type", Json.str "object"),
             ("properties", Json.obj [])])],
       Json.obj
        [("name", Json.str "getWeather"),
         ("description", Json.str "Get weather information for a location. If no location is passed, it will get the current location first."),
         ("inputSchema", Json.obj
            [("type", Json.str "object"),
             ("properties", Json.obj
                [("location", Json.obj
                   [("type", Json.str "string"),
                    ("description", Json.str "Location name (optional, defaults to current location)")])])])],
       Json.obj
        [("name", Json.str "orderFood"),
         ("description", Json.str "Order food based on weather-mood. This will first check the weather, then recommend food based on the weather conditions."),
         ("inputSchema", Json.obj
            [("type", Json.str "object"),
             ("properties", Json.obj
                [("location", Json.obj
                   [("type", Json.str "string"),
                    ("description", Json.str "Location name (optional, defaults to current location)")])])])]])]

/-- Embeds `handle_tools_call`.  `Except` carries the Python exceptions the
function can raise (`.get` on a non-dict argument, unhashable dict key);
`.ok none` is the Python `return None` for an unknown tool. -/
def handle_tools_call (request : List (String × Json)) :
    Except String (Option Json) :=
  let params := (alistFind request "params").getD (Json.obj [])
  match asEntries params with
  | .error e => .error e
  | .ok p =>
  let name := alistFind p "name"
  let args := (alistFind p "arguments").getD (Json.obj [])
  if strEq name "getCurrentLocation" then
    .ok (some (Json.obj
      [("content", Json.arr
          [Json.obj
            [("type", Json.str "text"),
             ("text", json_dumps (Json.obj
                [("location", Json.str "Bengaluru"),
                 ("message", Json.str "Current location retrieved successfully.")]))]]),
       ("isError", Json.boolean false)]))
  else if strEq name "getWeather" then
    match asEntries args with
    | .error e => .error e
    | .ok a =>
    let location := pyOr (alistFind a "location") (Json.str "Bengaluru")
    match weatherTableGet weather_data location with
    | .error e => .error e
    | .ok none =>
        .ok (some (Json.obj
          [("content", Json.arr
              [Json.obj
                [("type", Json.str "text"),
                 ("text", json_dumps (Json.obj
                    [("error", Json.str ("Weather data not available for location: " ++ pyStr location))])),
                 ("isError", Json.boolean true)]])]))
    | .ok (some weather) =>
        .ok (some (Json.obj
          [("content", Json.arr
              [Json.obj
                [("type", Json.str "text"),
                 ("text", json_dumps (Json.obj
                    [("location", location),
                     ("temperature", Json.num weather.temperature),
                     ("condition", Json.str weather.condition),
                     ("humidity", Json.num weather.humidity),
                     ("windSpeed", Json.num weather.windSpeed),
                     ("unit", Json.str "Celsius"),
                     ("message", Json.str ("Weather retrieved for " ++ pyStr location ++ "."))]))]]),
           ("isError", Json.boolean false)]))
  else if strEq name "orderFood" then
    match asEntries args with
    | .error e => .error e
    | .ok a =>
    let location := pyOr (alistFind a "location") (Json.str "Bengaluru")
    match weatherTableGet weather_data location with
    | .error e => .error e
    | .ok none =>
        .ok (some (Json.obj
          [("content", Json.arr
              [Json.obj
                [("type", Json.str "text"),
                 ("text", json_dumps (Json.obj
                    [("error", Json.str ("Cannot order food: Weather data not available for location: " ++ pyStr location))])),
                 ("isError", Json.boolean true)]])]))
    | .ok (some weather) =>
        let food_recommendation := get_food_recommendation weather.condition weather.temperature
        .ok (some (Json.obj
          [("content", Json.arr
              [Json.obj
                [("type", Json.str "text"),
                 ("text", json_dumps (Json.obj
                    [("location", location),
                     ("weather", Json.obj
                        [("temperature", Json.num weather.temperature),
                         ("condition", Json.str weather.condition)]),
                     ("order", Json.str food_recommendation),
                     ("status", Json.str "Ordered"),
                     ("message", Json.str ("Food ordered based on weather in " ++ pyStr location ++ "."))]))]]),
           ("isError", Json.boolean false)]))
  else
    .ok none

/-- Embeds `handle_prompts_list`. -/
def handle_prompts_list (_request : List (String × Json)) : Json :=
  Json.obj
    [("prompts", Json.arr
      [Json.obj
        [("name", Json.str "explain"),
         ("description", Json.str "Explain code or concept"),
         ("arguments", Json.arr
            [Json.obj
              [("name", Json.str "topic"),
               ("description", Json.str "Topic to explain"),
               ("required", Json.boolean true)]])]])]

/-- Embeds `handle_prompts_get`. -/
def handle_prompts_get (request : List (String × Json)) :
    Except String (Option Json) :=
  let params := (alistFind request "params").getD (Json.obj [])
  match asEntries params with
  | .error e => .error e
  | .ok p =>
  let name := alistFind p "name"
  let args := (alistFind p "arguments").getD (Json.obj [])
  if strEq name "explain" then
    match asEntries args with
    | .error e => .error e
    | .ok a =>
    let topic := (alistFind a "topic").getD (Json.str "")
    .ok (some (Json.obj
      [("messages", Json.arr
          [Json.obj
            [("role", Json.str "user"),
             ("content", Json.obj
                [("type", Json.str "text"),
                 ("text", Json.str ("Please explain: " ++ pyStr topic))])]])]))
  else
    .ok none

/-- Embeds `handle_resources_list`. -/
def handle_resources_list (_request : List (String × Json)) : Json :=
  Json.obj
    [("resources", Json.arr
      [Json.obj
        [("uri", Json.str "example://greeting"),
         ("name", Json.str "Greeting"),
         ("description", Json.str "A greeting message"),
         ("mimeType", Json.str "text/plain")]])]

/-- Embeds `handle_resources_read`. -/
def handle_resources_read (request : List (String × Json)) :
    Except String (Option Json) :=
  let params := (alistFind request "params").getD (Json.obj [])
  match asEntries params with
  | .error e => .error e
  | .ok p =>
  match alistFind p "uri" with
  | some (Json.str u) =>
      if u == "example://greeting" then
        .ok (some (Json.obj
          [("contents", Json.arr
              [Json.obj
                [("uri", Json.str u),
                 ("mimeType", Json.str "text/plain"),
                 ("text", Json.str "Hello from Python stdio MCP server with dependent tools!")]])]))
      else
        .ok none
  | _ => .ok none

/-- The `notifications/initialized` message printed right after answering
`initialize` (a request envelope, not a response: it has no `id`). -/
def initializedNotif : Json :=
  Json.obj [("jsonrpc", Json.str "2.0"),
            ("method", Json.str "notifications/initialized")]

/-- The body of the `main` read loop for one decoded request object: the
method chain of `mcp-examples/stdio-py/server.py`, lines 284-331.  Returns
the JSON lines printed, or the exception that escapes to the generic
`except` clause. -/
def dispatch (request : List (String × Json)) : Except String (List Json) :=
  let method := alistFind request "method"
  let request_id := (alistFind request "id").getD Json.null
  if strEq method "initialize" then
    .ok [send_response request_id (some (handle_init request)) none,
         initializedNotif]
  else if strEq method "tools/list" then
    .ok [send_response request_id (some (handle_tools_list request)) none]
  else if strEq method "tools/call" then
    match handle_tools_call request with
    | .error e => .error e
    | .ok result =>
        if optTruthy result then
          .ok [send_response request_id result none]
        else
          .ok [send_response request_id none (some (Json.obj
                [("code", Json.num (-32601)),
                 ("message", Json.str "Unknown tool")]))]
  else if strEq method "prompts/list" then
    .ok [send_response request_id (some (handle_prompts_list request)) none]
  else if strEq method "prompts/get" then
    match handle_prompts_get request with
    | .error e => .error e
    | .ok result =>
        if optTruthy result then
          .ok [send_response request_id result none]
        else
          .ok [send_response request_id none (some (Json.obj
                [("code", Json.num (-32601)),
                 ("message", Json.str "Unknown prompt")]))]
  else if strEq method "resources/list" then
    .ok [send_response request_id (some (handle_resources_list request)) none]
  else if strEq method "resources/read" then
    match handle_resources_read request with
    | .error e => .error e
    | .ok result =>
        if optTruthy result then
          .ok [send_response request_id result none]
        else
          .ok [send_response request_id none (some (Json.obj
                [("code", Json.num (-32601)),
                 ("message", Json.str "Unknown resource")]))]
  else
    .ok [send_response request_id none (some (Json.obj
          [("code", Json.num (-32601)),
           ("message", Json.str ("Method not found: " ++ pyStr ((alistFind request "method").getD Json.null)))]))]

/-- One line read from stdin: either text that `json.loads` rejects, or a
decoded JSON object (a line decoding to a non-object crashes the process in
the generic `except` clause re-raising on `request.get`; no claim concerns
that input class, and it is outside this model of well-formed traffic). -/
inductive Line where
  | malformed
  | request (entries : List (String × Json))

/-- Everything the server prints for one input line: the `-32700` parse
error for undecodable text (the loop then continues), the dispatched
replies, or the `-32603` internal-error envelope when a handler raised. -/
def processLine : Line → List Json
  | .malformed =>
      [Json.obj [("jsonrpc", Json.str "2.0"), ("id", Json.null),
                 ("error", Json.obj [("code", Json.num (-32700)),
                                     ("message", Json.str "Parse error")])]]
  | .request r =>
      match dispatch r with
      | .ok outs => outs
      | .error msg =>
          [Json.obj [("jsonrpc", Json.str "2.0"),
                     ("id", (alistFind r "id").getD Json.null),
                     ("error", Json.obj [("code", Json.num (-32603)),
                                         ("message", Json.str msg)])]]

/-- The read loop over a whole input stream (end of the list is end of
stdin). -/
def serverRun : List Line → List Json
  | [] => []
  | l :: ls => processLine l ++ serverRun ls

end StdioS

namespace HttpS

/-- Embeds `mcp-examples/http-py/server.py`, `weather_data`. -/
def weather_data : List (String × WeatherInfo) :=
  [("Bengaluru", ⟨28, "Partly Cloudy", 65, 12⟩),
   ("Mumbai", ⟨32, "Sunny", 75, 15⟩),
   ("Delhi", ⟨35, "Hot", 45, 10⟩),
   ("Chennai", ⟨30, "Humid", 80, 18⟩)]

/-- Embeds `get_food_recommendation` of the HTTP server. -/
def get_food_recommendation (condition : String) (temperature : Int) : String :=
  let condition_lower := strLower condition
  if pyIn "rain" condition_lower || pyIn "cloudy" condition_lower then
    "Hot Masala Dosa with Sambar and Chutney - perfect for a cozy rainy day!"
  else if pyIn "sunny" condition_lower || temperature > 30 then
    "Cool Raita, Fresh Fruit Salad, and Lemon Rice - refreshing for hot weather!"
  else if pyIn "cold" condition_lower || temperature < 20 then
    "Hot Biryani with Raita and Gulab Jamun - warming comfort food!"
  else
    "Butter Chicken with Naan and Mango Lassi - a balanced meal for pleasant weather!"

/-- The `try` body of `mcp_endpoint` for a decoded request body; the
exception variant feeds the `except` clause. -/
def endpointTry (body : List (String × Json)) : Except String Json :=
  let method := alistFind body "method"
  let params := (alistFind body "params").getD (Json.obj [])
  let request_id := (alistFind body "id").getD Json.null
  if strEq method "initialize" then
    .ok (Json.obj
      [("jsonrpc", Json.str "2.0"), ("id", request_id),
       ("result", Json.obj
          [("protocolVersion", Json.str "2024-11-05"),
           ("capabilities", Json.obj
              [("tools", Json.obj [("listChanged", Json.boolean true)]),
               ("prompts", Json.obj []),
               ("resources", Json.obj [])]),
           ("serverInfo", Json.obj
              [("name", Json.str "example-http-py-server"),
               ("version", Json.str "1.0.0")])])])
  else if strEq method "tools/list" then
    .ok (Json.obj
      [("jsonrpc", Json.str "2.0"), ("id", request_id),
       ("result", Json.obj
         [("tools", Json.arr
           [Json.obj
             [("name", Json.str "getCurrentLocation"),
              ("description", Json.str "Get the current location. Returns Bengaluru."),
              ("inputSchema", Json.obj
                 [("type", Json.str "object"),
                  ("properties", Json.obj [])])],
            Json.obj
             [("name", Json.str "getWeather"),
              ("description", Json.str "Get weather information for a location. If no location is passed, it will get the current location first."),
              ("inputSchema", Json.obj
                 [("type", Json.str "object"),
                  ("properties", Json.obj
                     [("location", Json.obj
                        [("type", Json.str "string"),
                         ("description", Json.str "Location name (optional, defaults to current location)")])])])],
            Json.obj
             [("name", Json.str "orderFood"),
              ("description", Json.str "Order food based on weather-mood. This will first check the weather, then recommend food based on the weather conditions."),
              ("inputSchema", Json.obj
                 [("type", Json.str "object"),
                  ("properties", Json.obj
                     [("location", Json.obj
                        [("type", Json.str "string"),
                         ("description", Json.str "Location name (optional, defaults to current location)")])])])]])])])
  else if strEq method "tools/call" then
    match asEntries params with
    | .error e => .error e
    | .ok p =>
    let tool_name := alistFind p "name"
    let tool_args := (alistFind p "arguments").getD (Json.obj [])
    if strEq tool_name "getCurrentLocation" then
      .ok (Json.obj
        [("jsonrpc", Json.str "2.0"), ("id", request_id),
         ("result", Json.obj
            [("content", Json.arr
                [Json.obj
                  [("type", Json.str "text"),
                   ("text", json_dumps (Json.obj
                      [("location", Json.str "Bengaluru"),
                       ("message", Json.str "Current location retrieved successfully.")]))]]),
             ("isError", Json.boolean false)])])
    else if strEq tool_name "getWeather" then
      match asEntries tool_args with
      | .error e => .error e
      | .ok a =>
      let location := pyOr (alistFind a "location") (Json.str "Bengaluru")
      match weatherTableGet weather_data location with
      | .error e => .error e
      | .ok none =>
          .ok (Json.obj
            [("jsonrpc", Json.str "2.0"), ("id", request_id),
             ("result", Json.obj
                [("content", Json.arr
                    [Json.obj
                      [("type", Json.str "text"),
                       ("text", json_dumps (Json.obj
                          [("error", Json.str ("Weather data not available for location: " ++ pyStr location))])),
                       ("isError", Json.boolean true)]])])])
      | .ok (some weather) =>
          .ok (Json.obj
            [("jsonrpc", Json.str "2.0"), ("id", request_id),
             ("result", Json.obj
                [("content", Json.arr
                    [Json.obj
                      [("type", Json.str "text"),
                       ("text", json_dumps (Json.obj
                          [("location", location),
                           ("temperature", Json.num weather.temperature),
                           ("condition", Json.str weather.condition),
                           ("humidity", Json.num weather.humidity),
                           ("windSpeed", Json.num weather.windSpeed),
                           ("unit", Json.str "Celsius"),
                           ("message", Json.str ("Weather retrieved for " ++ pyStr location ++ "."))]))]]),
                 ("isError", Json.boolean false)])])
    else if strEq tool_name "orderFood" then
      match asEntries tool_args with
      | .error e => .error e
      | .ok a =>
      let location := pyOr (alistFind a "location") (Json.str "Bengaluru")
      match weatherTableGet weather_data location with
      | .error e => .error e
      | .ok none =>
          .ok (Json.obj
            [("jsonrpc", Json.str "2.0"), ("id", request_id),
             ("result", Json.obj
                [("content", Json.arr
                    [Json.obj
                      [("type", Json.str "text"),
                       ("text", json_dumps (Json.obj
                          [("error", Json.str ("Cannot order food: Weather data not available for location: " ++ pyStr location))])),
                       ("isError", Json.boolean true)]])])])
      | .ok (some weather) =>
          let food_recommendation := get_food_recommendation weather.condition weather.temperature
          .ok (Json.obj
            [("jsonrpc", Json.str "2.0"), ("id", request_id),
             ("result", Json.obj
                [("content", Json.arr
                    [Json.obj
                      [("type", Json.str "text"),
                       ("text", json_dumps (Json.obj
                          [("location", location),
                           ("weather", Json.obj
                              [("temperature", Json.num weather.temperature),
                               ("condition", Json.str weather.condition)]),
                           ("order", Json.str food_recommendation),
                           ("status", Json.str "Ordered"),
                           ("message", Json.str ("Food ordered based on weather in " ++ pyStr location ++ "."))]))]]),
                 ("isError", Json.boolean false)])])
    else
      .ok (Json.obj
        [("jsonrpc", Json.str "2.0"), ("id", request_id),
         ("error", Json.obj
            [("code", Json.num (-32601)),
             ("message", Json.str ("Unknown tool: " ++ pyStr ((alistFind p "name").getD Json.null)))])])
  else
    .ok (Json.obj
      [("jsonrpc", Json.str "2.0"), ("id", request_id),
       ("error", Json.obj
          [("code", Json.num (-32601)),
           ("message", Json.str ("Method not found: " ++ pyStr ((alistFind body "method").getD Json.null)))])])

/-- Embeds `mcp_endpoint` on a decoded request body: the `try` chain above,
with the `except` clause turning a raised exception into the `-32603`
envelope (the body is in scope there, so its `id` is echoed). -/
def mcp_endpoint (body : List (String × Json)) : Json :=
  match endpointTry body with
  | .ok resp => resp
  | .error msg =>
      Json.obj [("jsonrpc", Json.str "2.0"),
                ("id", (alistFind body "id").getD Json.null),
                ("error", Json.obj [("code", Json.num (-32603)),
                                    ("message", Json.str msg)])]

end HttpS

namespace Parth

/-- One entry of `WEATHER_DATA` (`parth/server.py`, lines 44-55). -/
structure WeatherEntry where
  condition : String
  temp : Int
  humidity : Int
  description : String

/-- Pydantic model `WeatherResponse` (`parth/server.py` /
`parth/tools/server/models.py`). -/
structure WeatherResponse where
  weather : String
  condition : String
  temperature : Int
  humidity : Int
  description : String

/-- A `WEATHER_FOOD_MAP` entry value (`"food"` / `"funny"` keys). -/
structure FoodItem where
  food : String
  funny : String

/-- Pydantic model `FoodOrderResponse`. -/
structure FoodOrderResponse where
  food : String
  recommendation : String
  comment : String

/-- Embeds `WEATHER_DATA` of `parth/server.py` (the ten static scenarios). -/
def WEATHER_DATA : List WeatherEntry :=
  [⟨"Sunny", 28, 45, "Perfect beach weather! ☀️"⟩,
   ⟨"Rainy", 18, 85, "Grab your umbrella! 🌧️"⟩,
   ⟨"Snowy", -5, 70, "Winter wonderland! ❄️"⟩,
   ⟨"Cloudy", 22, 60, "Overcast skies ahead ☁️"⟩,
   ⟨"Windy", 20, 50, "Hold onto your hat! 💨"⟩,
   ⟨"Foggy", 15, 95, "Visibility is low! 🌫️"⟩,
   ⟨"Stormy", 16, 90, "Thunder and lightning! ⛈️"⟩,
   ⟨"Hot", 35, 40, "Scorching hot day! 🔥"⟩,
   ⟨"Cold", 5, 55, "Bundle up! 🧊"⟩,
   ⟨"Misty", 12, 88, "Mysterious mist! 🌫️"⟩]

/-- Embeds the `get_weather` tool of `parth/server.py` (lines 228-237):
`random.choice(WEATHER_DATA)` is the selection index `pick`. -/
def get_weather (location : String) (pick : Fin WEATHER_DATA.length) :
    WeatherResponse :=
  let weather_data := WEATHER_DATA.get pick
  ⟨weather_data.condition,
   weather_data.condition,
   weather_data.temp,
   weather_data.humidity,
   "Weather for " ++ location ++ ": " ++ weather_data.description⟩

/-- Embeds `parth/tools/server/get_weather.py`.  Its `WEATHER_DATA` comes
from the package data module, which is not among the sources; per the design
the table is an opaque injected read-only reference, so it is a parameter
here.  The body binds `condition_value` once and uses it for both fields,
exactly as the source does. -/
def get_weather_tool (table : List WeatherEntry) (location : String)
    (pick : Fin table.length) : WeatherResponse :=
  let weather_data := table.get pick
  let condition_value := weather_data.condition
  ⟨condition_value,
   condition_value,
   weather_data.temp,
   weather_data.humidity,
   "Weather for " ++ location ++ ": " ++ weather_data.description⟩

/-- Embeds `parth/tools/server/order_food.py`.  Modelled from the spec:
its `WEATHER_FOOD_MAP` lives in the package data module, absent from the
sources; the design treats the food table as an opaque injected lookup map,
so it is the parameter `wfm`.  Python evaluates `WEATHER_FOOD_MAP["Sunny"]`
(the eager `.get` default) before the lookup, so a map without the `"Sunny"`
key raises `KeyError` for every call; `random.choice` is the index `pick`
reduced modulo the list length, raising `IndexError` on an empty list
(unreachable: the fallback list is non-empty). -/
def order_food (wfm : List (String × List FoodItem)) (weather : String)
    (pick : Nat) : Except String FoodOrderResponse :=
  match alistFind wfm "Sunny" with
  | none => Except.error "KeyError"
  | some sunnyDefault =>
  let foods := (alistFind wfm weather).getD sunnyDefault
  let foods :=
    if foods.isEmpty then [⟨"Sandwich", "Safe fallback option! 🥪"⟩] else foods
  match foods.get? (pick % foods.length) with
  | none => Except.error "IndexError"
  | some food_item =>
      Except.ok ⟨food_item.food,
              "🍽️ Food Recommendation for " ++ weather ++ " Weather:\n" ++
                "Order: " ++ food_item.food ++ "\n" ++
                "💬 " ++ food_item.funny,
              food_item.funny⟩

/-- The enum constraint declared on `order_food`'s `weather` field. -/
def weatherEnum : List String :=
  ["Sunny", "Rainy", "Snowy", "Cloudy", "Windy", "Foggy", "Stormy",
   "Hot", "Cold", "Misty"]

/-- Modelled from the spec: a small concrete instance of the opaque food
table, keyed by enum conditions with non-empty food lists, used to evaluate
`order_food` at a concrete input (the real table in the absent data module
is keyed by exactly the ten enum values). -/
def demoFoodMap : List (String × List FoodItem) :=
  [("Sunny", [⟨"Ice Cream", "Emergency cooling system! 🍦"⟩,
              ⟨"Fresh Salad", "Light and refreshing! 🥗"⟩]),
   ("Rainy", [⟨"Hot Soup", "Warm your soul! 🍲"⟩])]

end Parth

/-- A JSON-RPC request/response id: string, integer or null (design §3). -/
inductive RpcId where
  | str (s : String)
  | num (n : Int)
  | null

/-- Wire form of an id. -/
def RpcId.toJson : RpcId → Json
  | .str s => Json.str s
  | .num n => Json.num n
  | .null => Json.null

/-- Reading an id back off the wire. -/
def rpcIdOfJson : Json → Option RpcId
  | Json.str s => some (RpcId.str s)
  | Json.num n => some (RpcId.num n)
  | Json.null => some RpcId.null
  | _ => none

/-- A protocol error object `{code, message}` (design §6). -/
structure RpcError where
  code : Int
  message : String

/-- A response envelope per the design's data model (§3): an id and exactly
one of a result or an error. -/
structure ResponseEnvelope where
  id : RpcId
  payload : Sum Json RpcError

/-- Encoding a response envelope, via the stdio server's `send_response`
(the single place both servers' response shape comes from). -/
def encodeEnvelope (e : ResponseEnvelope) : Json :=
  match e.payload with
  | .inl r => StdioS.send_response e.id.toJson (some r) none
  | .inr err =>
      StdioS.send_response e.id.toJson none
        (some (Json.obj [("code", Json.num err.code),
                         ("message", Json.str err.message)]))

/-- Modelled from the spec: the design states the wire envelope shape
(§3, §6) but the repository contains no decoder for responses (clients do
the decoding), so this reads an envelope back following the spec's words:
take the id, then exactly one of `result` / `error`, the error being a
`{code, message}` object. -/
def decodeEnvelope (j : Json) : Option ResponseEnvelope :=
  match j with
  | Json.obj entries =>
      match (alistFind entries "id").bind rpcIdOfJson,
            alistFind entries "result", alistFind entries "error" with
      | some i, some r, none => some ⟨i, .inl r⟩
      | some i, none, some (Json.obj errEntries) =>
          match alistFind errEntries "code", alistFind errEntries "message" with
          | some (Json.num c), some (Json.str m) => some ⟨i, .inr ⟨c, m⟩⟩
          | _, _ => none
      | _, _, _ => none
  | _ => none

/-- The weather document the stdio server serializes for Bengaluru. -/
def bengaluruPayload : Json :=
  Json.obj [("location", Json.str "Bengaluru"),
            ("temperature", Json.num 28),
            ("condition", Json.str "Partly Cloudy"),
            ("humidity", Json.num 65),
            ("windSpeed", Json.num 12),
            ("unit", Json.str "Celsius"),
            ("message", Json.str "Weather retrieved for Bengaluru.")]

/-- The `tools/call` result for `getWeather` at Bengaluru. -/
def bengaluruResult : Json :=
  Json.obj [("content", Json.arr
               [Json.obj [("type", Json.str "text"),
                          ("text", json_dumps bengaluruPayload)]]),
            ("isError", Json.boolean false)]

/-- C4: calling `tools/call` with `getWeather` and location `"Bengaluru"`
against the fixed four-city table yields a result whose single text content
block carries (the serialization of) a JSON document with `location`
`"Bengaluru"` and a `condition` drawn from the table's fixed condition
strings, and the result's `isError` is `false`. -/
theorem C4_weather_bengaluru_ok :
    StdioS.processLine (StdioS.Line.request
      [("jsonrpc", Json.str "2.0"), ("id", Json.num 5),
       ("method", Json.str "tools/call"),
       ("params", Json.obj
          [("name", Json.str "getWeather"),
           ("arguments", Json.obj [("location", Json.str "Bengaluru")])])]) =
      [Json.obj [("jsonrpc", Json.str "2.0"), ("id", Json.num 5),
                 ("result", bengaluruResult)]]
    ∧ jget bengaluruPayload "location" = some (Json.str "Bengaluru")
    ∧ jget bengaluruPayload "condition" = some (Json.str "Partly Cloudy")
    ∧ "Partly Cloudy" ∈ StdioS.weather_data.map (fun e => e.2.condition)
    ∧ jget bengaluruResult "isError" = some (Json.boolean false) := by
  refine ⟨rfl, rfl, rfl, ?_, rfl⟩
  simp [StdioS.weather_data]

/-- The error document both servers serialize for an unknown location. -/
def nowherePayload : Json :=
  Json.obj [("error",
             Json.str "Weather data not available for location: Nowhere")]

/-- The content block both servers build for an unknown location: note the
`isError` flag sits inside this block. -/
def nowhereBlock : Json :=
  Json.obj [("type", Json.str "text"),
            ("text", json_dumps nowherePayload),
            ("isError", Json.boolean true)]

/-- The `tools/call` result for `getWeather` at an unknown location: its
only key is `content`. -/
def nowhereResult : Json :=
  Json.obj [("content", Json.arr [nowhereBlock])]

/-- C1: calling `getWeather` with the unknown location `"Nowhere"` does
return a successful envelope whose message mentions "not available" — but
on both servers the `isError: true` flag is placed inside the content block
instead of on the result, which therefore has no `isError` field at all
(the success branches of the very same functions put `isError` on the
result, and the design's `ToolCallResult` carries it there too, so the
error branches contradict the code's own convention). -/
theorem C1_weather_nowhere_nested_isError :
    StdioS.processLine (StdioS.Line.request
      [("jsonrpc", Json.str "2.0"), ("id", Json.num 3),
       ("method", Json.str "tools/call"),
       ("params", Json.obj
          [("name", Json.str "getWeather"),
           ("arguments", Json.obj [("location", Json.str "Nowhere")])])]) =
      [Json.obj [("jsonrpc", Json.str "2.0"), ("id", Json.num 3),
                 ("result", nowhereResult)]]
    ∧ HttpS.mcp_endpoint
        [("jsonrpc", Json.str "2.0"), ("id", Json.num 3),
         ("method", Json.str "tools/call"),
         ("params", Json.obj
            [("name", Json.str "getWeather"),
             ("arguments", Json.obj [("location", Json.str "Nowhere")])])] =
      Json.obj [("jsonrpc", Json.str "2.0"), ("id", Json.num 3),
                ("result", nowhereResult)]
    ∧ keyOccurs nowhereResult "isError" = false
    ∧ jget nowhereBlock "isError" = some (Json.boolean true)
    ∧ pyIn "not available"
        "Weather data not available for location: Nowhere" = true := by
  exact ⟨rfl, rfl, rfl, rfl, by decide⟩

/-- C5: a line that `json.loads` rejects makes the stdio server print the
`-32700` parse-error envelope with a null id, and the loop goes on to serve
the remaining lines unchanged. -/
theorem C5_parse_error_nonfatal (rest : List StdioS.Line) :
    StdioS.serverRun (StdioS.Line.malformed :: rest) =
      Json.obj [("jsonrpc", Json.str "2.0"), ("id", Json.null),
                ("error", Json.obj [("code", Json.num (-32700)),
                                    ("message", Json.str "Parse error")])]
        :: StdioS.serverRun rest := by
  rfl

/-- C8: encoding any response envelope (via `send_response`) and decoding
the wire object yields the original envelope, id and result/error
exclusivity included. -/
theorem C8_envelope_roundtrip (e : ResponseEnvelope) :
    decodeEnvelope (encodeEnvelope e) = some e := by
  obtain ⟨i, p⟩ := e
  cases p with
  | inl r => cases i <;> rfl
  | inr err => cases i <;> rfl

/-- C10: whichever entry the random choice picks, the parth `get_weather`
tool returns a `WeatherResponse` whose `weather` and `condition` fields are
equal — in the `parth/server.py` registration over its static ten-entry
table, and in the `parth/tools/server/get_weather.py` variant over any
injected table. -/
theorem C10_weather_condition_alias :
    (∀ (location : String) (pick : Fin Parth.WEATHER_DATA.length),
       (Parth.get_weather location pick).weather =
         (Parth.get_weather location pick).condition)
    ∧ (∀ (table : List Parth.WeatherEntry) (location : String)
         (pick : Fin table.length),
       (Parth.get_weather_tool table location pick).weather =
         (Parth.get_weather_tool table location pick).condition) := by
  constructor <;> intros <;> rfl

/-- A response envelope carries exactly one of the `result` / `error` keys
when this is `true`. -/
def respExclusive (j : Json) : Bool :=
  keyOccurs j "result" != keyOccurs j "error"

/-- All lines a dispatch prints are either notifications (they carry a
`method` key) or envelopes with exactly one of `result` / `error`. -/
def allOutsOk : Except String (List Json) → Bool
  | .ok outs => outs.all (fun j => keyOccurs j "method" || respExclusive j)
  | .error _ => true

set_option maxHeartbeats 2000000 in
theorem dispatch_outs_exclusive (r : List (String × Json)) :
    allOutsOk (StdioS.dispatch r) = true := by
  unfold StdioS.dispatch
  dsimp only
  repeat' split
  all_goals rfl

/-- Carrier for the HTTP half of the exclusivity invariant. -/
def httpRespOk : Except String Json → Bool
  | .ok resp => respExclusive resp
  | .error _ => true

set_option maxHeartbeats 2000000 in
theorem endpoint_try_exclusive (body : List (String × Json)) :
    httpRespOk (HttpS.endpointTry body) = true := by
  unfold HttpS.endpointTry
  dsimp only
  repeat' split
  all_goals rfl

/-- C2: on every code path of both servers, every emitted response envelope
carries exactly one of the `result` / `error` fields — never both, never
neither.  On stdio the only non-response output is the
`notifications/initialized` message, which carries a `method` key instead;
the HTTP endpoint answers every request with a single response envelope. -/
theorem C2_response_result_error_exclusive :
    (∀ l : StdioS.Line,
       (StdioS.processLine l).all
         (fun j => keyOccurs j "method" || respExclusive j) = true)
    ∧ (∀ body : List (String × Json),
         respExclusive (HttpS.mcp_endpoint body) = true) := by
  constructor
  · intro l
    cases l with
    | malformed => rfl
    | request r =>
      have hd := dispatch_outs_exclusive r
      rcases h : StdioS.dispatch r with msg | outs
      · simp only [StdioS.processLine, h]
        rfl
      · rw [h] at hd
        simp only [StdioS.processLine, h]
        simpa [allOutsOk] using hd
  · intro body
    have hd := endpoint_try_exclusive body
    rcases h : HttpS.endpointTry body with msg | resp
    · simp only [HttpS.mcp_endpoint, h]
      rfl
    · rw [h] at hd
      simp only [HttpS.mcp_endpoint, h]
      simpa [httpRespOk] using hd

/-- The method names the servers route (stdio routes all seven; the HTTP
server routes the first three and sends every other method to the same
`-32601` arm). -/
def recognizedMethods : List String :=
  ["initialize", "tools/list", "tools/call", "prompts/list", "prompts/get",
   "resources/list", "resources/read"]

/-- C6: a well-formed request object whose method equals none of the
recognized method names draws, from both servers, a single protocol-level
error envelope with code `-32601` (and the interpolated
`Method not found` message). -/
theorem C6_unknown_method_errors_32601 (r : List (String × Json))
    (h : recognizedMethods.all (fun s => !(strEq (alistFind r "method") s)) = true) :
    StdioS.processLine (StdioS.Line.request r) =
      [Json.obj [("jsonrpc", Json.str "2.0"),
                 ("id", (alistFind r "id").getD Json.null),
                 ("error", Json.obj
                    [("code", Json.num (-32601)),
                     ("message", Json.str ("Method not found: " ++
                        pyStr ((alistFind r "method").getD Json.null)))])]]
    ∧ HttpS.mcp_endpoint r =
      Json.obj [("jsonrpc", Json.str "2.0"),
                ("id", (alistFind r "id").getD Json.null),
                ("error", Json.obj
                   [("code", Json.num (-32601)),
                    ("message", Json.str ("Method not found: " ++
                       pyStr ((alistFind r "method").getD Json.null)))])] := by
  simp only [recognizedMethods, List.all_cons, List.all_nil, Bool.and_eq_true,
    Bool.not_eq_true', and_true] at h
  obtain ⟨h1, h2, h3, h4, h5, h6, h7⟩ := h
  constructor
  · simp [StdioS.processLine, StdioS.dispatch, StdioS.send_response, Json.truthy,
      h1, h2, h3, h4, h5, h6, h7]
  · simp [HttpS.mcp_endpoint, HttpS.endpointTry, h1, h2, h3]

/-- Witness for C6 at the unknown method `"foo/bar"`. -/
theorem C6_unknown_method_errors_32601_witness :
    StdioS.processLine (StdioS.Line.request
      [("jsonrpc", Json.str "2.0"), ("id", Json.num 7),
       ("method", Json.str "foo/bar")]) =
      [Json.obj [("jsonrpc", Json.str "2.0"), ("id", Json.num 7),
                 ("error", Json.obj
                    [("code", Json.num (-32601)),
                     ("message", Json.str "Method not found: foo/bar")])]]
    ∧ HttpS.mcp_endpoint
        [("jsonrpc", Json.str "2.0"), ("id", Json.num 7),
         ("method", Json.str "foo/bar")] =
      Json.obj [("jsonrpc", Json.str "2.0"), ("id", Json.num 7),
                ("error", Json.obj
                   [("code", Json.num (-32601)),
                    ("message", Json.str "Method not found: foo/bar")])] :=
  C6_unknown_method_errors_32601 _ (by decide)

/-- Whether an envelope carries an explicit null id. -/
def idNull (j : Json) : Bool :=
  match jget j "id" with
  | some Json.null => true
  | _ => false

/-- Whether a request object has a null id (or no id at all, which
`request.get("id")` also turns into `None`). -/
def idAbsentOrNull (r : List (String × Json)) : Bool :=
  match alistFind r "id" with
  | none => true
  | some Json.null => true
  | _ => false

/-- For a dispatch under a null request id: at least one line is printed,
and every printed response envelope echoes the null id. -/
def outsReplyNull : Except String (List Json) → Bool
  | .ok outs => !outs.isEmpty && outs.all (fun j => keyOccurs j "method" || idNull j)
  | .error _ => true

set_option maxHeartbeats 2000000 in
theorem dispatch_reply_null (r : List (String × Json))
    (hid : (alistFind r "id").getD Json.null = Json.null) :
    outsReplyNull (StdioS.dispatch r) = true := by
  unfold StdioS.dispatch
  dsimp only
  rw [hid]
  repeat' split
  all_goals rfl

/-- C7 counterexample: a `tools/list` request with `id: null` — which the
claim calls a notification that must draw no reply — makes the stdio
server print a reply line. -/
theorem C7_counterexample_null_id_reply :
    (StdioS.processLine (StdioS.Line.request
        [("method", Json.str "tools/list"), ("id", Json.null)])).length = 1 := by
  rfl

/-- C7 amended: a null (or absent) id does not mark a notification for this
server; the read loop replies to such a request all the same, echoing the
null id in every response envelope it prints. -/
theorem C7_null_id_still_replies (r : List (String × Json))
    (h : idAbsentOrNull r = true) :
    (StdioS.processLine (StdioS.Line.request r)).isEmpty = false
    ∧ (StdioS.processLine (StdioS.Line.request r)).all
        (fun j => keyOccurs j "method" || idNull j) = true := by
  have hid : (alistFind r "id").getD Json.null = Json.null := by
    unfold idAbsentOrNull at h
    rcases hf : alistFind r "id" with _ | v
    · rfl
    · rw [hf] at h
      cases v <;> simp_all [Option.getD]
  have hd := dispatch_reply_null r hid
  rcases hds : StdioS.dispatch r with msg | outs
  · simp only [StdioS.processLine, hds]
    rw [hid]
    exact ⟨rfl, rfl⟩
  · rw [hds] at hd
    simp only [outsReplyNull, Bool.and_eq_true] at hd
    simp only [StdioS.processLine, hds]
    exact ⟨by simpa using hd.1, hd.2⟩

/-- Witness for the amended C7 at a concrete `prompts/list` with null id. -/
theorem C7_null_id_still_replies_witness :
    (StdioS.processLine (StdioS.Line.request
        [("method", Json.str "prompts/list"), ("id", Json.null)])).isEmpty = false
    ∧ (StdioS.processLine (StdioS.Line.request
        [("method", Json.str "prompts/list"), ("id", Json.null)])).all
        (fun j => keyOccurs j "method" || idNull j) = true :=
  C7_null_id_still_replies _ (by decide)

/-- The `tools/call` request envelope both servers receive for a named tool
with the given arguments object. -/
def toolCallReq (name : String) (args : List (String × Json)) :
    List (String × Json) :=
  [("jsonrpc", Json.str "2.0"), ("id", Json.num 1),
   ("method", Json.str "tools/call"),
   ("params", Json.obj [("name", Json.str name), ("arguments", Json.obj args)])]

/-- The argument object lacks the `location` key, or binds it to a Python-
falsy value (empty string, null, 0, false, empty containers). -/
def locAbsentOrFalsy (args : List (String × Json)) : Bool :=
  match alistFind args "location" with
  | none => true
  | some v => !v.truthy

theorem pyOr_falsy_loc (args : List (String × Json))
    (h : locAbsentOrFalsy args = true) :
    pyOr (alistFind args "location") (Json.str "Bengaluru") = Json.str "Bengaluru" := by
  unfold locAbsentOrFalsy at h
  unfold pyOr
  rcases hf : alistFind args "location" with _ | v
  · rfl
  · rw [hf] at h
    simp at h
    simp [h]

theorem alistFind_setKey (args : List (String × Json)) (k : String) (v : Json) :
    alistFind (setKey args k v) k = some v := by
  induction args with
  | nil => simp [setKey, alistFind]
  | cons hd tl ih =>
      obtain ⟨k2, w⟩ := hd
      by_cases hk : k2 == k
      · simp [setKey, hk, alistFind]
      · simp [setKey, hk, alistFind, ih]

theorem pyOr_setKey_bengaluru (args : List (String × Json)) :
    pyOr (alistFind (setKey args "location" (Json.str "Bengaluru")) "location")
        (Json.str "Bengaluru") = Json.str "Bengaluru" := by
  rw [alistFind_setKey]
  rfl

theorem stdio_getWeather_loc (args : List (String × Json))
    (h : pyOr (alistFind args "location") (Json.str "Bengaluru") = Json.str "Bengaluru") :
    StdioS.handle_tools_call (toolCallReq "getWeather" args) =
      Except.ok (some bengaluruResult) := by
  simp [StdioS.handle_tools_call, toolCallReq, alistFind, asEntries, strEq, h,
    weatherTableGet, StdioS.weather_data, pyStr, bengaluruResult, bengaluruPayload,
    json_dumps]

/-- The food-order document produced for Bengaluru (condition
"Partly Cloudy" matches the "cloudy" rule of the recommendation table). -/
def bengaluruOrderPayload : Json :=
  Json.obj [("location", Json.str "Bengaluru"),
            ("weather", Json.obj [("temperature", Json.num 28),
                                  ("condition", Json.str "Partly Cloudy")]),
            ("order", Json.str "Hot Masala Dosa with Sambar and Chutney - perfect for a cozy rainy day!"),
            ("status", Json.str "Ordered"),
            ("message", Json.str "Food ordered based on weather in Bengaluru.")]

/-- The `tools/call` result for `orderFood` at Bengaluru. -/
def bengaluruOrderResult : Json :=
  Json.obj [("content", Json.arr
               [Json.obj [("type", Json.str "text"),
                          ("text", json_dumps bengaluruOrderPayload)]]),
            ("isError", Json.boolean false)]

theorem stdio_orderFood_loc (args : List (String × Json))
    (h : pyOr (alistFind args "location") (Json.str "Bengaluru") = Json.str "Bengaluru") :
    StdioS.handle_tools_call (toolCallReq "orderFood" args) =
      Except.ok (some bengaluruOrderResult) := by
  simp [StdioS.handle_tools_call, toolCallReq, alistFind, asEntries, strEq, h,
    weatherTableGet, StdioS.weather_data, pyStr, bengaluruOrderResult,
    bengaluruOrderPayload, json_dumps, StdioS.get_food_recommendation, strLower,
    pyIn, hasSubList, pfxOf]

theorem http_getWeather_loc (args : List (String × Json))
    (h : pyOr (alistFind args "location") (Json.str "Bengaluru") = Json.str "Bengaluru") :
    HttpS.mcp_endpoint (toolCallReq "getWeather" args) =
      Json.obj [("jsonrpc", Json.str "2.0"), ("id", Json.num 1),
                ("result", bengaluruResult)] := by
  simp [HttpS.mcp_endpoint, HttpS.endpointTry, toolCallReq, alistFind, asEntries,
    strEq, h, weatherTableGet, HttpS.weather_data, pyStr, bengaluruResult,
    bengaluruPayload, json_dumps]

theorem http_orderFood_loc (args : List (String × Json))
    (h : pyOr (alistFind args "location") (Json.str "Bengaluru") = Json.str "Bengaluru") :
    HttpS.mcp_endpoint (toolCallReq "orderFood" args) =
      Json.obj [("jsonrpc", Json.str "2.0"), ("id", Json.num 1),
                ("result", bengaluruOrderResult)] := by
  simp [HttpS.mcp_endpoint, HttpS.endpointTry, toolCallReq, alistFind, asEntries,
    strEq, h, weatherTableGet, HttpS.weather_data, pyStr, bengaluruOrderResult,
    bengaluruOrderPayload, json_dumps, HttpS.get_food_recommendation, strLower,
    pyIn, hasSubList, pfxOf]

/-- C9: a `tools/call` of `getWeather` or `orderFood` whose arguments lack
a `location` key, or bind it to a falsy value such as `""`, returns on both
servers exactly what the same call with `location: "Bengaluru"` returns —
the `... or "Bengaluru"` default makes the two indistinguishable. -/
theorem C9_falsy_location_defaults_bengaluru (args : List (String × Json))
    (h : locAbsentOrFalsy args = true) :
    (StdioS.handle_tools_call (toolCallReq "getWeather" args) =
       StdioS.handle_tools_call (toolCallReq "getWeather"
         (setKey args "location" (Json.str "Bengaluru"))))
    ∧ (StdioS.handle_tools_call (toolCallReq "orderFood" args) =
       StdioS.handle_tools_call (toolCallReq "orderFood"
         (setKey args "location" (Json.str "Bengaluru"))))
    ∧ (HttpS.mcp_endpoint (toolCallReq "getWeather" args) =
       HttpS.mcp_endpoint (toolCallReq "getWeather"
         (setKey args "location" (Json.str "Bengaluru"))))
    ∧ (HttpS.mcp_endpoint (toolCallReq "orderFood" args) =
       HttpS.mcp_endpoint (toolCallReq "orderFood"
         (setKey args "location" (Json.str "Bengaluru")))) := by
  have e1 := pyOr_falsy_loc args h
  have e2 := pyOr_setKey_bengaluru args
  exact ⟨(stdio_getWeather_loc args e1).trans (stdio_getWeather_loc _ e2).symm,
         (stdio_orderFood_loc args e1).trans (stdio_orderFood_loc _ e2).symm,
         (http_getWeather_loc args e1).trans (http_getWeather_loc _ e2).symm,
         (http_orderFood_loc args e1).trans (http_orderFood_loc _ e2).symm⟩

/-- Witness for C9 at the empty-string location. -/
theorem C9_falsy_location_defaults_bengaluru_witness :
    (StdioS.handle_tools_call (toolCallReq "getWeather" [("location", Json.str "")]) =
       StdioS.handle_tools_call (toolCallReq "getWeather"
         (setKey [("location", Json.str "")] "location" (Json.str "Bengaluru"))))
    ∧ (StdioS.handle_tools_call (toolCallReq "orderFood" [("location", Json.str "")]) =
       StdioS.handle_tools_call (toolCallReq "orderFood"
         (setKey [("location", Json.str "")] "location" (Json.str "Bengaluru"))))
    ∧ (HttpS.mcp_endpoint (toolCallReq "getWeather" [("location", Json.str "")]) =
       HttpS.mcp_endpoint (toolCallReq "getWeather"
         (setKey [("location", Json.str "")] "location" (Json.str "Bengaluru"))))
    ∧ (HttpS.mcp_endpoint (toolCallReq "orderFood" [("location", Json.str "")]) =
       HttpS.mcp_endpoint (toolCallReq "orderFood"
         (setKey [("location", Json.str "")] "location" (Json.str "Bengaluru")))) :=
  C9_falsy_location_defaults_bengaluru [("location", Json.str "")] (by decide)

/-- C3 counterexample: the value `"Tsunami"` is no member of the ten-value
enum declared on `order_food`'s `weather` field, yet the call does not
produce any error — the handler falls back to the `"Sunny"` food list and
returns a normal, successful `FoodOrderResponse` (evaluated on a concrete
instance of the injected food table). -/
theorem C3_counterexample_tsunami_success :
    ¬ ("Tsunami" ∈ Parth.weatherEnum)
    ∧ Parth.order_food Parth.demoFoodMap "Tsunami" 0 =
        Except.ok ⟨"Ice Cream",
          "🍽️ Food Recommendation for Tsunami Weather:\n" ++
            "Order: Ice Cream\n" ++ "💬 Emergency cooling system! 🍦",
          "Emergency cooling system! 🍦"⟩ :=
  ⟨by decide, rfl⟩

/-- C3 amended: a `weather` value outside the food table's keys (the real
table is keyed by exactly the ten enum members) is not rejected: for every
injected table carrying a non-empty `"Sunny"` entry, `order_food` silently
substitutes the Sunny food list and returns a successful recommendation —
still naming the unknown value — rather than a result with `isError`
true. -/
theorem C3_enum_fallback_sunny (wfm : List (String × List Parth.FoodItem))
    (w : String) (pick : Nat) (foods : List Parth.FoodItem)
    (hmiss : alistFind wfm w = none)
    (hsunny : alistFind wfm "Sunny" = some foods)
    (hne : foods ≠ []) :
    Parth.order_food wfm w pick =
      Except.ok
        ⟨(foods.getD (pick % foods.length) ⟨"Sandwich", "Safe fallback option! 🥪"⟩).food,
         "🍽️ Food Recommendation for " ++ w ++ " Weather:\n" ++
           "Order: " ++
           (foods.getD (pick % foods.length) ⟨"Sandwich", "Safe fallback option! 🥪"⟩).food ++
           "\n" ++ "💬 " ++
           (foods.getD (pick % foods.length) ⟨"Sandwich", "Safe fallback option! 🥪"⟩).funny,
         (foods.getD (pick % foods.length) ⟨"Sandwich", "Safe fallback option! 🥪"⟩).funny⟩ := by
  unfold Parth.order_food
  rw [hsunny, hmiss]
  have hpos : 0 < foods.length := List.length_pos.mpr hne
  have hlt : pick % foods.length < foods.length := Nat.mod_lt _ hpos
  have hemp : foods.isEmpty = false := by
    cases foods with
    | nil => exact absurd rfl hne
    | cons f fs => rfl
  simp only [Option.getD_none, hemp, Bool.false_eq_true, if_false]
  rw [List.get?_eq_get hlt]
  simp [List.getD, List.getElem?_eq_getElem hlt]

/-- Witness for the amended C3 at `"Blizzard"`, selection index 1. -/
theorem C3_enum_fallback_sunny_witness :
    Parth.order_food Parth.demoFoodMap "Blizzard" 1 =
      Except.ok
        ⟨(([⟨"Ice Cream", "Emergency cooling system! 🍦"⟩,
            ⟨"Fresh Salad", "Light and refreshing! 🥗"⟩] :
              List Parth.FoodItem).getD (1 % 2)
            ⟨"Sandwich", "Safe fallback option! 🥪"⟩).food,
         "🍽️ Food Recommendation for " ++ "Blizzard" ++ " Weather:\n" ++
           "Order: " ++
           (([⟨"Ice Cream", "Emergency cooling system! 🍦"⟩,
              ⟨"Fresh Salad", "Light and refreshing! 🥗"⟩] :
                List Parth.FoodItem).getD (1 % 2)
              ⟨"Sandwich", "Safe fallback option! 🥪"⟩).food ++
           "\n" ++ "💬 " ++
           (([⟨"Ice Cream", "Emergency cooling system! 🍦"⟩,
              ⟨"Fresh Salad", "Light and refreshing! 🥗"⟩] :
                List Parth.FoodItem).getD (1 % 2)
              ⟨"Sandwich", "Safe fallback option! 🥪"⟩).funny,
         (([⟨"Ice Cream", "Emergency cooling system! 🍦"⟩,
            ⟨"Fresh Salad", "Light and refreshing! 🥗"⟩] :
              List Parth.FoodItem).getD (1 % 2)
            ⟨"Sandwich", "Safe fallback option! 🥪"⟩).funny⟩ :=
  C3_enum_fallback_sunny Parth.demoFoodMap "Blizzard" 1
    [⟨"Ice Cream", "Emergency cooling system! 🍦"⟩,
     ⟨"Fresh Salad", "Light and refreshing! 🥗"⟩]
    rfl rfl (List.cons_ne_nil _ _)
